import Mathlib

/-!
# Verification of the combat/progression core of `joseon_rpg.py`

Shallow embedding of the combat resolution engine and the player/enemy
progression model of `src/joseon_rpg.py`, together with theorems settling
the specification claims about it.

Modelling conventions:
* Python `int` fields that stay non-negative along every code path are `Nat`;
  fields the code can drive negative (`health`, `sanity`, `durability`,
  enemy `defense` deltas) are `Int`.
* Python floor division `//` on non-negative divisors is Lean's `Int./`
  (`Int.ediv`) or `Nat./`.
* Python `int(x * 1.2)` etc. (float multiply, truncate toward zero) is
  modelled as exact rational scaling truncated toward zero: on `Nat` this is
  `n * 12 / 10`, on `Int` it is `Int.tdiv (x * 12) 10`.  The float rounding
  of the source is abstracted to exact arithmetic.
* Every random draw (`random.randint`, `random.choice`) is an explicit
  argument of the embedded function, so each function is a deterministic
  map from state and injected rolls to state and outcome.
* Python mutation is explicit state passing: a method that mutates `self`
  becomes a function returning the updated record.
-/

set_option linter.unusedVariables false

namespace JoseonRPG

/-- `ItemType` enum of the source. -/
inductive ItemType where
  | weapon
  | armor
  | special
  | story
deriving DecidableEq, Repr

/-- `JobPath` enum of the source, in declaration order (the order used by
`list(JobPath).index` in `advance_job`). -/
inductive JobPath where
  | WANDERER
  | WARRIOR_APPRENTICE
  | WARRIOR
  | BLADE_MASTER
  | SWORD_DEMON
deriving DecidableEq, Repr

/-- Position of a job in the declaration order: `list(JobPath).index(job)`. -/
def JobPath.index : JobPath → Nat
  | .WANDERER => 0
  | .WARRIOR_APPRENTICE => 1
  | .WARRIOR => 2
  | .BLADE_MASTER => 3
  | .SWORD_DEMON => 4

/-- The `job_progression` dict of `Character.advance_job`: each tier maps to
the next; `SWORD_DEMON` (absent from the dict) maps to `none`. -/
def job_progression : JobPath → Option JobPath
  | .WANDERER => some .WARRIOR_APPRENTICE
  | .WARRIOR_APPRENTICE => some .WARRIOR
  | .WARRIOR => some .BLADE_MASTER
  | .BLADE_MASTER => some .SWORD_DEMON
  | .SWORD_DEMON => none

/-- The `Item` class.  `power`/`defense` start non-negative and every
mutation keeps them so, hence `Nat`; `durability` can be driven negative
(`durability -= 30`, `durability -= 1` without floor), hence `Int`. -/
structure Item where
  name : String
  item_type : ItemType
  description : String
  power : Nat
  defense : Nat
  special_effect : String
  enhancement_level : Nat
  durability : Int
deriving DecidableEq, Repr

/-- Outcome tag returned by `Item.enhance` (the string second component of
the Python return value). -/
inductive EnhanceOutcome where
  | normal
  | damaged
  | destroyed
  | cursed
deriving DecidableEq, Repr

/-- `Item.enhance`.  `roll` is the draw `random.randint(1, 100)` and
`destroy_roll` the second draw `random.randint(1, 100)` of the destructive
branch; both are injected.  Returns the updated item and the
`(success, outcome)` pair of the source. -/
def Item.enhance (i : Item) (roll : Nat) (destroy_roll : Nat) :
    Item × Bool × EnhanceOutcome :=
  let success_rate : Int := 80 - (i.enhancement_level * 15 : Nat)
  if (roll : Int) ≤ success_rate then
    ({ i with
        enhancement_level := i.enhancement_level + 1,
        power := i.power * 12 / 10,
        defense := i.defense * 12 / 10 }, true, .normal)
  else if (roll : Int) ≤ success_rate + 10 then
    (i, false, .normal)
  else if (roll : Int) ≤ success_rate + 20 then
    ({ i with durability := i.durability - 30 }, false, .damaged)
  else if destroy_roll ≤ 50 then
    ({ i with durability := 0 }, false, .destroyed)
  else
    ({ i with
        name := "저주받은 " ++ i.name,
        special_effect := "착용자의 정신력을 갉아먹는다",
        power := i.power * 15 / 10,
        defense := i.defense * 5 / 10 }, false, .cursed)

/-- The `Skill` class (immutable template). -/
structure Skill where
  name : String
  damage_multiplier : ℚ
  stamina_cost : Nat
  focus_cost : Nat
  description : String
deriving DecidableEq, Repr

/-- One buff/debuff entry: the dicts `{"type": ..., "turns": ..., "value": ...}`
stored in `Character.buffs` / `Character.debuffs`. -/
structure Buff where
  type : String
  turns : Int
  value : Int
deriving DecidableEq, Repr

/-- The `Character` class: the fields the combat/progression core reads or
writes.  Presentation-only fields (origin, faction affinities, nightmares,
in-combat display flags other than `turn_action_taken`) are omitted; none of
the embedded operations read them.  `health` and `sanity` are `Int` because
the source can drive them negative; `stamina`/`focus` are `Int` to make the
lower-bound invariants non-trivial. -/
structure Character where
  name : String
  job : JobPath
  max_health : Nat
  health : Int
  max_stamina : Nat
  stamina : Int
  max_focus : Nat
  focus : Int
  defense : Int
  sanity : Int
  base_attack : Nat
  base_defense : Nat
  money : Nat
  experience : Nat
  level : Nat
  inventory : List Item
  equipped_weapon : Option Item
  equipped_armor : Option Item
  skills : List Skill
  turn_action_taken : Bool
  is_cursed : Bool
  buffs : List Buff
  debuffs : List Buff
deriving DecidableEq, Repr

namespace Character

/-- `Character.take_damage`: effective damage is `max(0, damage - self.defense)`,
subtracted from `health` with no floor; returns the effective damage.  Only
the scalar `self.defense` field participates. -/
def take_damage (c : Character) (damage : Int) : Character × Int :=
  let actual_damage := max 0 (damage - c.defense)
  ({ c with health := c.health - actual_damage }, actual_damage)

/-- `Character.heal`: `health = min(max_health, health + amount)`. -/
def heal (c : Character) (amount : Nat) : Character :=
  { c with health := min (c.max_health : Int) (c.health + amount) }

/-- `Character.use_stamina`: subtract only when affordable, report success. -/
def use_stamina (c : Character) (amount : Nat) : Character × Bool :=
  if c.stamina ≥ (amount : Int) then
    ({ c with stamina := c.stamina - amount }, true)
  else
    (c, false)

/-- `Character.use_focus`: subtract only when affordable, report success. -/
def use_focus (c : Character) (amount : Nat) : Character × Bool :=
  if c.focus ≥ (amount : Int) then
    ({ c with focus := c.focus - amount }, true)
  else
    (c, false)

/-- `Character.rest`: +30 stamina, +20 focus, +10 health, each capped at max. -/
def rest (c : Character) : Character :=
  { c with
      stamina := min (c.max_stamina : Int) (c.stamina + 30),
      focus := min (c.max_focus : Int) (c.focus + 20),
      health := min (c.max_health : Int) (c.health + 10) }

/-- `Character.add_item`: append to inventory. -/
def add_item (c : Character) (item : Item) : Character :=
  { c with inventory := c.inventory ++ [item] }

/-- `Character.equip_weapon`: guard is category = weapon and durability > 0;
on success only the slot is assigned.  The source performs no inventory
membership check. -/
def equip_weapon (c : Character) (weapon : Item) : Character :=
  if weapon.item_type = ItemType.weapon ∧ weapon.durability > 0 then
    { c with equipped_weapon := some weapon }
  else
    c

/-- `Character.equip_armor`: guard is category = armor and durability > 0;
on success only the slot is assigned.  The source performs no inventory
membership check. -/
def equip_armor (c : Character) (armor : Item) : Character :=
  if armor.item_type = ItemType.armor ∧ armor.durability > 0 then
    { c with equipped_armor := some armor }
  else
    c

/-- `Character.get_total_attack`: base attack plus equipped weapon power. -/
def get_total_attack (c : Character) : Nat :=
  c.base_attack + (match c.equipped_weapon with
    | some w => w.power
    | none => 0)

/-- Sum of the `value` fields of buffs whose `type` matches `t` (the loops
`for buff in self.buffs: if buff["type"] == t: ... += buff["value"]`). -/
def buff_sum (buffs : List Buff) (t : String) : Int :=
  buffs.foldl (fun s b => if b.type = t then s + b.value else s) 0

/-- `Character.get_total_defense`: base defense + equipped armor defense +
sum of active defense-kind buff values. -/
def get_total_defense (c : Character) : Int :=
  (c.base_defense : Int) + (match c.equipped_armor with
    | some a => (a.defense : Int)
    | none => 0) + buff_sum c.buffs "defense"

/-- `Character.get_dodge_chance`: `min(10 + focus // 20 + dodge buffs, 75)`.
Python `//` on the non-negative divisor 20 is `Int./` (floor division). -/
def get_dodge_chance (c : Character) : Int :=
  min (10 + c.focus / 20 + buff_sum c.buffs "dodge") 75

/-- `Character.advance_job`: consult `job_progression` and the level gate
`level ≥ (list(JobPath).index(job) + 1) * 5`; on success move to the next
tier and grant +20 max pools / +5 base attack and defense.  Returns the
updated character and the source's boolean result. -/
def advance_job (c : Character) : Character × Bool :=
  match job_progression c.job with
  | some next =>
    if c.level ≥ (c.job.index + 1) * 5 then
      ({ c with
          job := next,
          max_health := c.max_health + 20,
          max_stamina := c.max_stamina + 20,
          max_focus := c.max_focus + 20,
          base_attack := c.base_attack + 5,
          base_defense := c.base_defense + 5 }, true)
    else
      (c, false)
  | none => (c, false)

/-- The `while experience >= level * 100` loop of `Character.gain_experience`:
subtract the threshold, increment the level, grant +10 to each max pool and
+2 to base attack/defense, and repeat. -/
def level_up_loop (c : Character) : Character :=
  if c.experience ≥ c.level * 100 then
    level_up_loop { c with
      experience := c.experience - c.level * 100,
      level := c.level + 1,
      max_health := c.max_health + 10,
      max_stamina := c.max_stamina + 10,
      max_focus := c.max_focus + 10,
      base_attack := c.base_attack + 2,
      base_defense := c.base_defense + 2 }
  else c
termination_by 2 * c.experience + (if c.level = 0 then 1 else 0)
decreasing_by
  rename_i h
  by_cases hl : c.level = 0
  · simp [hl]
  · have h1 : c.level ≥ 1 := Nat.one_le_iff_ne_zero.mpr hl
    simp only [hl, if_false]
    omega

/-- `Character.gain_experience`: add the amount, then run the level-up loop. -/
def gain_experience (c : Character) (amount : Nat) : Character :=
  level_up_loop { c with experience := c.experience + amount }

end Character

/-- The `Enemy` class.  `attack` stays non-negative (`Nat`); `health` can go
negative (no floor on subtraction), `defense` is only ever increased by the
defend action but is kept `Int` to mirror the Python `int`. -/
structure Enemy where
  name : String
  max_health : Nat
  health : Int
  attack : Nat
  defense : Int
  experience_reward : Nat
  loot : List Item
  combat_patterns : List String
  rage_mode : Bool
  stance : String
deriving DecidableEq, Repr

namespace Enemy

/-- `Enemy.take_damage`: effective damage `max(0, damage - defense)` off
`health`; then, if `health <= max_health * 0.3` and rage mode is not yet
latched, latch it and set `attack = int(attack * 1.5)`.  The float literal
`0.3` is modelled as the exact rational 3/10, i.e. the comparison
`10 * health ≤ 3 * max_health`; `int(attack * 1.5)` on the non-negative
`attack` is `attack * 3 / 2`. -/
def take_damage (e : Enemy) (damage : Int) : Enemy × Int :=
  let actual_damage := max 0 (damage - e.defense)
  let e' := { e with health := e.health - actual_damage }
  if 10 * e'.health ≤ 3 * (e'.max_health : Int) ∧ ¬ e'.rage_mode then
    ({ e' with rage_mode := true, attack := e'.attack * 3 / 2 }, actual_damage)
  else
    (e', actual_damage)

/-- `Enemy.is_alive`: `health > 0`. -/
def is_alive (e : Enemy) : Bool :=
  e.health > 0

/-- `Enemy.get_attack_damage` with the draw `random.randint(-5, 5)` injected
as `offset`.  `base_damage = attack + offset` can be negative for small
`attack`, so the truncations `int(x * 1.3)`, `int(x * 1.2)`, `int(x * 0.8)`
use `Int.tdiv` (truncation toward zero, matching Python `int()`). -/
def get_attack_damage (e : Enemy) (offset : Int) : Int :=
  let base_damage : Int := (e.attack : Int) + offset
  let base_damage := if e.rage_mode then Int.tdiv (base_damage * 13) 10 else base_damage
  if e.stance = "aggressive" then Int.tdiv (base_damage * 12) 10
  else if e.stance = "defensive" then Int.tdiv (base_damage * 8) 10
  else base_damage

/-- `Enemy.choose_action` with the uniform choices injected: `choice` indexes
into the list being drawn from (`random.choice(l)` is `l[choice % len l]`). -/
def choose_action (e : Enemy) (player_last_action : Option String)
    (choice : Nat) : String :=
  if e.rage_mode then
    ["strong_attack", "attack", "attack"].getD (choice % 3) "attack"
  else if player_last_action = some "defend" then
    "strong_attack"
  else if player_last_action = some "dodge" then
    "feint"
  else if e.combat_patterns.length > 0 then
    e.combat_patterns.getD (choice % e.combat_patterns.length) "attack"
  else
    "attack"

end Enemy

/-- The `Combat` class: one player, one enemy, plus the session-local
counters. -/
structure Combat where
  player : Character
  enemy : Enemy
  turn_count : Nat
  is_active : Bool
  player_last_action : Option String
deriving DecidableEq, Repr

/-- Discriminated outcome of a player combat action (the source returns the
corresponding message strings; the tags carry the same information). -/
inductive PlayerOutcome where
  | already_acted
  | not_enough_resource
  | attack_hit (damage : Int) (weapon_destroyed : Bool)
  | attack_miss
  | dodge_ready
  | defend_ready
  | ambush_hit (damage : Int)
  | ambush_fail
  | skill_hit (damage : Int)
deriving DecidableEq, Repr

/-- Discriminated outcome of `Combat.enemy_turn`. -/
inductive EnemyEvent where
  | enemy_dead
  | dodged
  | attack_hit (damage : Int) (armor_destroyed : Bool)
  | strong_attack_hit (damage : Int)
  | feint
  | defend
  | taunt
  | unknown
deriving DecidableEq, Repr

namespace Combat

/-- `Combat.player_attack` with the hit roll `random.randint(1, 100)` and the
damage offset `random.randint(-5, 10)` injected.  Mirrors the source order:
the already-acted check, then `turn_action_taken = True` and
`player_last_action = "attack"`, then the stamina check (`stamina < 10`
rejects AFTER the flag was set), then `use_stamina(10)`, then the hit-chance
formula on the post-deduction stamina. -/
def player_attack (st : Combat) (hit_roll : Nat) (dmg_offset : Int) :
    Combat × PlayerOutcome :=
  if st.player.turn_action_taken then
    (st, .already_acted)
  else
    let p := { st.player with turn_action_taken := true }
    let st := { st with player := p, player_last_action := some "attack" }
    let stamina_cost : Nat := 10
    if p.stamina < (stamina_cost : Int) then
      (st, .not_enough_resource)
    else
      let p := (p.use_stamina stamina_cost).1
      let hit_chance : Int := 70 + p.focus / 10 - (100 - p.stamina) / 20
      if (hit_roll : Int) ≤ hit_chance then
        let damage : Int := (p.get_total_attack : Int) + dmg_offset
        let (e, actual_damage) := st.enemy.take_damage damage
        match p.equipped_weapon with
        | some w =>
          let w' := { w with durability := w.durability - 1 }
          let p := { p with equipped_weapon := some w' }
          ({ st with player := p, enemy := e },
            .attack_hit actual_damage (w'.durability ≤ 0))
        | none =>
          ({ st with player := p, enemy := e }, .attack_hit actual_damage false)
      else
        ({ st with player := p }, .attack_miss)

/-- `Combat.player_dodge`: flag and `player_last_action = "dodge"` are set
before the `use_stamina(15)` gate; on success a 2-turn +30 dodge buff is
appended. -/
def player_dodge (st : Combat) : Combat × PlayerOutcome :=
  if st.player.turn_action_taken then
    (st, .already_acted)
  else
    let p := { st.player with turn_action_taken := true }
    let st := { st with player := p, player_last_action := some "dodge" }
    let (p, ok) := p.use_stamina 15
    if ¬ ok then
      ({ st with player := p }, .not_enough_resource)
    else
      let p := { p with buffs := p.buffs ++ [⟨"dodge", 2, 30⟩] }
      ({ st with player := p }, .dodge_ready)

/-- `Combat.player_defend`: appends a 1-turn +15 defense buff and deducts a
flat 5 stamina floored at 0 (`stamina = max(0, stamina - 5)`), never
failing. -/
def player_defend (st : Combat) : Combat × PlayerOutcome :=
  if st.player.turn_action_taken then
    (st, .already_acted)
  else
    let p := { st.player with turn_action_taken := true }
    let st := { st with player := p, player_last_action := some "defend" }
    let p := { p with
      buffs := p.buffs ++ [⟨"defense", 1, 15⟩],
      stamina := max 0 (p.stamina - 5) }
    ({ st with player := p }, .defend_ready)

/-- `Combat.player_ambush` with the success roll injected.  The source does
NOT set `player_last_action` here.  The guard is the short-circuit
`not use_stamina(20) or not use_focus(20)`: when the stamina deduction
succeeds but the focus check fails, the 20 stamina stay spent. -/
def player_ambush (st : Combat) (roll : Nat) : Combat × PlayerOutcome :=
  if st.player.turn_action_taken then
    (st, .already_acted)
  else
    let p := { st.player with turn_action_taken := true }
    let st := { st with player := p }
    let (p, ok_st) := p.use_stamina 20
    if ¬ ok_st then
      ({ st with player := p }, .not_enough_resource)
    else
      let (p, ok_fc) := p.use_focus 20
      if ¬ ok_fc then
        ({ st with player := p }, .not_enough_resource)
      else
        let success_chance : Int := 50 + p.level * 2
        if (roll : Int) ≤ success_chance then
          let damage : Int := (p.get_total_attack : Int) * 2
          let (e, actual_damage) := st.enemy.take_damage damage
          ({ st with player := p, enemy := e }, .ambush_hit actual_damage)
        else
          ({ st with player := p }, .ambush_fail)

/-- `Combat.player_use_skill`: same short-circuit resource guard as ambush
(`player_last_action` is not set); damage `int(get_total_attack() *
skill.damage_multiplier)` (the float multiplier is modelled as an exact
rational, truncated with `Rat.floor` — the product is non-negative for the
multipliers ≥ 1 of the catalog, where floor and `int()` agree). -/
def player_use_skill (st : Combat) (skill : Skill) : Combat × PlayerOutcome :=
  if st.player.turn_action_taken then
    (st, .already_acted)
  else
    let p := { st.player with turn_action_taken := true }
    let st := { st with player := p }
    let (p, ok_st) := p.use_stamina skill.stamina_cost
    if ¬ ok_st then
      ({ st with player := p }, .not_enough_resource)
    else
      let (p, ok_fc) := p.use_focus skill.focus_cost
      if ¬ ok_fc then
        ({ st with player := p }, .not_enough_resource)
      else
        let damage : Int := Rat.floor ((p.get_total_attack : ℚ) * skill.damage_multiplier)
        let (e, actual_damage) := st.enemy.take_damage damage
        ({ st with player := p, enemy := e }, .skill_hit actual_damage)

/-- `Combat.enemy_turn` with the dodge roll, the resolved enemy action (the
output of `choose_action`, whose own draws are injected at its call site)
and the attack-damage offset injected.  Armor durability decreases only in
the plain `"attack"` branch; the `"strong_attack"` branch applies
`int(get_attack_damage() * 1.5)` damage without touching armor; `"feint"`
floors focus at 0; `"taunt"` subtracts 5 sanity with NO floor. -/
def enemy_turn (st : Combat) (dodge_roll : Nat) (action : String)
    (offset : Int) : Combat × EnemyEvent :=
  if ¬ st.enemy.is_alive then
    (st, .enemy_dead)
  else if (dodge_roll : Int) ≤ st.player.get_dodge_chance then
    (st, .dodged)
  else if action = "attack" then
    let damage := st.enemy.get_attack_damage offset
    let (p, actual_damage) := st.player.take_damage damage
    match p.equipped_armor with
    | some a =>
      let a' := { a with durability := a.durability - 1 }
      let p := { p with equipped_armor := some a' }
      ({ st with player := p }, .attack_hit actual_damage (a'.durability ≤ 0))
    | none =>
      ({ st with player := p }, .attack_hit actual_damage false)
  else if action = "strong_attack" then
    let damage := Int.tdiv (st.enemy.get_attack_damage offset * 3) 2
    let (p, actual_damage) := st.player.take_damage damage
    ({ st with player := p }, .strong_attack_hit actual_damage)
  else if action = "feint" then
    let p := { st.player with focus := max 0 (st.player.focus - 15) }
    ({ st with player := p }, .feint)
  else if action = "defend" then
    let e := { st.enemy with defense := st.enemy.defense + 5, stance := "defensive" }
    ({ st with enemy := e }, .defend)
  else if action = "taunt" then
    let p := { st.player with sanity := st.player.sanity - 5 }
    ({ st with player := p }, .taunt)
  else
    (st, .unknown)

/-- `Combat.end_turn`: advance the turn counter, clear the acted flag, and
decrement-and-prune buff/debuff counters. -/
def end_turn (st : Combat) : Combat :=
  let tick := fun (l : List Buff) =>
    (l.map (fun b => { b with turns := b.turns - 1 })).filter (fun b => b.turns > 0)
  { st with
      turn_count := st.turn_count + 1,
      player := { st.player with
        turn_action_taken := false,
        buffs := tick st.player.buffs,
        debuffs := tick st.player.debuffs } }

/-- `Combat.check_combat_end`: death takes precedence, then victory. -/
def check_combat_end (st : Combat) : Combat × Option String :=
  if st.player.health ≤ 0 then
    ({ st with is_active := false }, some "death")
  else if ¬ st.enemy.is_alive then
    ({ st with is_active := false }, some "victory")
  else
    (st, none)

end Combat

/-- Folding a sequence of `Enemy.take_damage` calls over an enemy (the state
after an arbitrary sequence of damage events within one encounter). -/
def Enemy.damage_seq (e : Enemy) (l : List Int) : Enemy :=
  l.foldl (fun en d => (en.take_damage d).1) e

/-- One call of the resource-pool mutators of `Character` (the operations
quantified over by the resource-range invariant). -/
inductive CharOp where
  | heal (amount : Nat)
  | use_stamina (amount : Nat)
  | use_focus (amount : Nat)
  | rest
deriving DecidableEq, Repr

/-- Apply one resource-pool mutator. -/
def apply_char_op (c : Character) : CharOp → Character
  | .heal n => c.heal n
  | .use_stamina n => (c.use_stamina n).1
  | .use_focus n => (c.use_focus n).1
  | .rest => c.rest

/-- The clamped-resource invariant: health, stamina and focus each within
`[0, max]`. -/
def pools_in_range (c : Character) : Prop :=
  0 ≤ c.health ∧ c.health ≤ (c.max_health : Int) ∧
  0 ≤ c.stamina ∧ c.stamina ≤ (c.max_stamina : Int) ∧
  0 ≤ c.focus ∧ c.focus ≤ (c.max_focus : Int)

instance (c : Character) : Decidable (pools_in_range c) := by
  unfold pools_in_range; infer_instance

/-- The "녹슨 검" weapon of the item catalog. -/
def rusty_sword : Item :=
  { name := "녹슨 검", item_type := .weapon, description := "오래된 녹슨 검이다.",
    power := 10, defense := 0, special_effect := "",
    enhancement_level := 0, durability := 100 }

/-- The "가죽 갑옷" armor of the item catalog. -/
def leather_armor : Item :=
  { name := "가죽 갑옷", item_type := .armor, description := "질긴 가죽으로 만든 갑옷.",
    power := 0, defense := 15, special_effect := "",
    enhancement_level := 0, durability := 100 }

/-- A freshly created WAR_ORPHAN character: max pools 100 (all full),
`defense = 10`, `sanity = 100`, starting attack 12 / defense 15 / money 10,
level 1, nothing owned. -/
def war_orphan : Character :=
  { name := "전쟁 고아", job := .WANDERER,
    max_health := 100, health := 100,
    max_stamina := 100, stamina := 100,
    max_focus := 100, focus := 100,
    defense := 10, sanity := 100,
    base_attack := 12, base_defense := 15,
    money := 10, experience := 0, level := 1,
    inventory := [], equipped_weapon := none, equipped_armor := none,
    skills := [], turn_action_taken := false, is_cursed := false,
    buffs := [], debuffs := [] }

/-- A bandit-style enemy used in the concrete combat scenarios. -/
def bandit : Enemy :=
  { name := "산적", max_health := 100, health := 100,
    attack := 20, defense := 5, experience_reward := 30,
    loot := [], combat_patterns := ["attack", "strong_attack", "taunt"],
    rage_mode := false, stance := "normal" }

/-- A fresh combat session against `bandit` with the player short on stamina. -/
def low_stamina_combat : Combat :=
  { player := { war_orphan with stamina := 5 }, enemy := bandit,
    turn_count := 0, is_active := true, player_last_action := none }

/-- A fresh combat session with ample stamina but not enough focus for the
20-focus ambush cost. -/
def low_focus_combat : Combat :=
  { player := { war_orphan with focus := 10 }, enemy := bandit,
    turn_count := 0, is_active := true, player_last_action := none }

/-- A fresh combat session with the player's sanity at the bottom of its
documented 0–100 range. -/
def despairing_combat : Combat :=
  { player := { war_orphan with sanity := 0 }, enemy := bandit,
    turn_count := 0, is_active := true, player_last_action := none }

/-- A combat session in which the player wears the leather armor and has
just defended (so `choose_action` deterministically picks `strong_attack`). -/
def armored_combat : Combat :=
  { player := { war_orphan with equipped_armor := some leather_armor },
    enemy := bandit, turn_count := 0, is_active := true,
    player_last_action := some "defend" }

/-- The fresh WAR_ORPHAN character raised to level 5, still a WANDERER. -/
def level_5_wanderer : Character :=
  { war_orphan with level := 5 }

/-! ## Theorems -/

/-- C2: one `enhance` call with `success_rate = 80 − 15×enhancement_level`
and a uniform roll in `[1,100]` takes exactly one of four outcomes:
`roll ≤ success_rate` is success (`enhancement_level += 1`, power and
defense ×1.2 truncated); `success_rate < roll ≤ success_rate+10` is plain
failure with no state change; `success_rate+10 < roll ≤ success_rate+20`
subtracts 30 durability; `roll > success_rate+20` is the destructive
branch, 50/50 between durability set to 0 and cursed mutation (power ×1.5,
defense ×0.5, truncated).  `enhancement_level` increases only on the
success branch, and at `enhancement_level ≥ 6` success is impossible. -/
theorem enhance_four_outcomes (i : Item) (roll destroy_roll : Nat)
    (h1 : 1 ≤ roll) (h2 : roll ≤ 100) :
    ((roll : Int) ≤ 80 - (i.enhancement_level * 15 : Nat) →
      i.enhance roll destroy_roll =
        ({ i with enhancement_level := i.enhancement_level + 1,
                  power := i.power * 12 / 10,
                  defense := i.defense * 12 / 10 }, true, .normal)) ∧
    (80 - (i.enhancement_level * 15 : Nat) < (roll : Int) →
      (roll : Int) ≤ 80 - (i.enhancement_level * 15 : Nat) + 10 →
      i.enhance roll destroy_roll = (i, false, .normal)) ∧
    (80 - (i.enhancement_level * 15 : Nat) + 10 < (roll : Int) →
      (roll : Int) ≤ 80 - (i.enhancement_level * 15 : Nat) + 20 →
      i.enhance roll destroy_roll =
        ({ i with durability := i.durability - 30 }, false, .damaged)) ∧
    (80 - (i.enhancement_level * 15 : Nat) + 20 < (roll : Int) →
      destroy_roll ≤ 50 →
      i.enhance roll destroy_roll =
        ({ i with durability := 0 }, false, .destroyed)) ∧
    (80 - (i.enhancement_level * 15 : Nat) + 20 < (roll : Int) →
      50 < destroy_roll →
      i.enhance roll destroy_roll =
        ({ i with name := "저주받은 " ++ i.name,
                  special_effect := "착용자의 정신력을 갉아먹는다",
                  power := i.power * 15 / 10,
                  defense := i.defense * 5 / 10 }, false, .cursed)) ∧
    ((i.enhance roll destroy_roll).1.enhancement_level = i.enhancement_level + 1 ↔
      (roll : Int) ≤ 80 - (i.enhancement_level * 15 : Nat)) ∧
    ((i.enhance roll destroy_roll).1.enhancement_level = i.enhancement_level ∨
      (i.enhance roll destroy_roll).1.enhancement_level = i.enhancement_level + 1) ∧
    (i.enhancement_level ≥ 6 → (i.enhance roll destroy_roll).2.1 = false) := by
  refine ⟨fun h => ?_, fun h h' => ?_, fun h h' => ?_, fun h h' => ?_,
    fun h h' => ?_, ?_, ?_, fun h6 => ?_⟩
  all_goals simp only [Item.enhance]
  all_goals split_ifs with ha hb hc hd
  all_goals first
    | rfl
    | (exfalso; omega)
    | (dsimp only; omega)

/-- Witness for C2 at the §8 scenario: an item at enhancement level 2
(success rate 50) with roll 95 and destroy roll 100 lands in the cursed
destructive branch. -/
theorem enhance_four_outcomes_witness :
    (({ rusty_sword with enhancement_level := 2 } : Item).enhance 95 100).2.2 =
      EnhanceOutcome.cursed := by
  have h := enhance_four_outcomes { rusty_sword with enhancement_level := 2 }
    95 100 (by decide) (by decide)
  rw [h.2.2.2.2.1 (by decide) (by decide)]

/-- One `Enemy.take_damage` call either leaves `(rage_mode, attack)` both
unchanged or performs the single latch `false → true` with `attack`
multiplied by 3/2. -/
theorem take_damage_rage_step (e : Enemy) (d : Int) :
    ((e.take_damage d).1.rage_mode = e.rage_mode ∧
      (e.take_damage d).1.attack = e.attack) ∨
    (e.rage_mode = false ∧ (e.take_damage d).1.rage_mode = true ∧
      (e.take_damage d).1.attack = e.attack * 3 / 2) := by
  simp only [Enemy.take_damage]
  split_ifs with h
  · exact Or.inr ⟨by simpa using h.2, rfl, rfl⟩
  · exact Or.inl ⟨rfl, rfl⟩

/-- C3: for every sequence of `take_damage` calls, rage mode latches at most
once: either `(rage_mode, attack)` are untouched throughout, or the latch
fired exactly once, flipping `rage_mode` from `false` to `true` and
multiplying `attack` by 1.5 (truncated) exactly once.  A single call latches
precisely when rage was off and the post-damage health is ≤ 30% of max
(modelled exactly as `10·health' ≤ 3·max_health`), and a call on a raging
enemy never re-multiplies `attack` nor un-latches `rage_mode`. -/
theorem rage_mode_latches_once (e : Enemy) (l : List Int) :
    (((e.damage_seq l).rage_mode = e.rage_mode ∧
        (e.damage_seq l).attack = e.attack) ∨
      (e.rage_mode = false ∧ (e.damage_seq l).rage_mode = true ∧
        (e.damage_seq l).attack = e.attack * 3 / 2)) ∧
    (∀ d : Int,
      (e.rage_mode = true →
        (e.take_damage d).1.rage_mode = true ∧
        (e.take_damage d).1.attack = e.attack) ∧
      (e.rage_mode = false →
        10 * (e.health - max 0 (d - e.defense)) ≤ 3 * (e.max_health : Int) →
        (e.take_damage d).1.rage_mode = true ∧
        (e.take_damage d).1.attack = e.attack * 3 / 2) ∧
      (e.rage_mode = false →
        3 * (e.max_health : Int) < 10 * (e.health - max 0 (d - e.defense)) →
        (e.take_damage d).1.rage_mode = false ∧
        (e.take_damage d).1.attack = e.attack)) := by
  constructor
  · induction l generalizing e with
    | nil => exact Or.inl ⟨rfl, rfl⟩
    | cons d rest ih =>
      have hstep := take_damage_rage_step e d
      have hrest := ih (e.take_damage d).1
      simp only [Enemy.damage_seq, List.foldl_cons] at *
      rcases hstep with ⟨h1, h2⟩ | ⟨h1, h2, h3⟩
      · rcases hrest with ⟨g1, g2⟩ | ⟨g1, g2, g3⟩
        · exact Or.inl ⟨by rw [g1, h1], by rw [g2, h2]⟩
        · exact Or.inr ⟨by rw [← h1, g1], g2, by rw [g3, h2]⟩
      · rcases hrest with ⟨g1, g2⟩ | ⟨g1, g2, g3⟩
        · exact Or.inr ⟨h1, by rw [g1, h2], by rw [g2, h3]⟩
        · rw [g1] at h2; exact absurd h2 (by simp)
  · intro d
    refine ⟨fun hr => ?_, fun hr hc => ?_, fun hr hc => ?_⟩ <;>
    · simp only [Enemy.take_damage]
      split_ifs with h <;> simp_all <;> omega

/-- C1 counterexample: with 5 stamina (below the 10 of attack), the attack is
rejected with the not-enough-resource outcome, yet `turn_action_taken` flips
from `false` to `true`: the turn-action slot IS consumed by the rejection. -/
theorem resource_rejection_cex :
    low_stamina_combat.player.turn_action_taken = false ∧
    (low_stamina_combat.player_attack 50 0).2 =
      PlayerOutcome.not_enough_resource ∧
    (low_stamina_combat.player_attack 50 0).1.player.turn_action_taken = true := by
  decide

/-- C1 (amended): failing the stamina/focus precondition of plain
attack/dodge/ambush/use-skill reports the not-enough-resource outcome, but
`turn_action_taken` is set to `true` before the resource check, so the
rejection consumes the player's turn-action slot; attack and dodge leave
stamina and focus unchanged on rejection, while ambush and use-skill — whose
guard is the short-circuit `not use_stamina(..) or not use_focus(..)` —
consume the full stamina cost when the stamina check passes and the focus
check fails. -/
theorem resource_rejection_consumes_turn_slot (st : Combat) (hit_roll : Nat)
    (dmg_offset : Int) (roll : Nat) (skill : Skill)
    (h : st.player.turn_action_taken = false) :
    (st.player.stamina < 10 →
      st.player_attack hit_roll dmg_offset =
        ({ st with player := { st.player with turn_action_taken := true },
                   player_last_action := some "attack" },
          .not_enough_resource)) ∧
    (st.player.stamina < 15 →
      st.player_dodge =
        ({ st with player := { st.player with turn_action_taken := true },
                   player_last_action := some "dodge" },
          .not_enough_resource)) ∧
    (st.player.stamina < 20 →
      st.player_ambush roll =
        ({ st with player := { st.player with turn_action_taken := true } },
          .not_enough_resource)) ∧
    (20 ≤ st.player.stamina → st.player.focus < 20 →
      st.player_ambush roll =
        ({ st with player := { st.player with
                               turn_action_taken := true,
                               stamina := st.player.stamina - 20 } },
          .not_enough_resource)) ∧
    (st.player.stamina < (skill.stamina_cost : Int) →
      st.player_use_skill skill =
        ({ st with player := { st.player with turn_action_taken := true } },
          .not_enough_resource)) ∧
    ((skill.stamina_cost : Int) ≤ st.player.stamina →
      st.player.focus < (skill.focus_cost : Int) →
      st.player_use_skill skill =
        ({ st with player := { st.player with
                               turn_action_taken := true,
                               stamina := st.player.stamina - skill.stamina_cost } },
          .not_enough_resource)) := by
  refine ⟨fun hs => ?_, fun hs => ?_, fun hs => ?_, fun hs hf => ?_,
    fun hs => ?_, fun hs hf => ?_⟩
  all_goals simp only [Combat.player_attack, Combat.player_dodge,
    Combat.player_ambush, Combat.player_use_skill, Character.use_stamina,
    Character.use_focus]
  all_goals rw [if_neg (by simp [h])]
  all_goals try dsimp only
  all_goals split_ifs <;>
    first
      | rfl
      | (exfalso; (try dsimp only at *); all_goals omega)

/-- Witness for C1 (amended): the low-stamina session instantiates the
attack conjunct, and the low-focus session the ambush stamina-burn conjunct. -/
theorem resource_rejection_consumes_turn_slot_witness :
    low_stamina_combat.player_attack 50 0 =
      ({ low_stamina_combat with
          player := { low_stamina_combat.player with turn_action_taken := true },
          player_last_action := some "attack" },
        .not_enough_resource) ∧
    low_focus_combat.player_ambush 50 =
      ({ low_focus_combat with
          player := { low_focus_combat.player with
                      turn_action_taken := true,
                      stamina := low_focus_combat.player.stamina - 20 } },
        .not_enough_resource) :=
  ⟨(resource_rejection_consumes_turn_slot low_stamina_combat 50 0 50
      ⟨"일섬", 3/2, 20, 10, "빠른 베기 공격"⟩ (by decide)).1 (by decide),
    ((resource_rejection_consumes_turn_slot low_focus_combat 50 0 50
      ⟨"일섬", 3/2, 20, 10, "빠른 베기 공격"⟩ (by decide)).2.2.2.1 (by decide) (by decide))⟩

/-- Witness for C3: one big hit latches the bandit's rage and multiplies
its attack 20 → 30 exactly once. -/
theorem rage_mode_latches_once_witness :
    (bandit.take_damage 200).1.rage_mode = true ∧
    (bandit.take_damage 200).1.attack = bandit.attack * 3 / 2 :=
  ((rage_mode_latches_once bandit []).2 200).2.1 (by decide) (by decide)

/-- C4 counterexample: sanity is NOT clamped by combat effects.  The taunt
action (reachable from the enemy's configured action pool via
`choose_action`) subtracts 5 from sanity with no floor: a player at the
documented lower bound 0 is driven to −5, outside the 0–100 range. -/
theorem taunt_sanity_not_clamped_cex :
    bandit.choose_action none 2 = "taunt" ∧
    despairing_combat.player.sanity = 0 ∧
    (despairing_combat.enemy_turn 100 "taunt" 0).1.player.sanity = -5 := by
  decide

/-- C4 (amended): health, stamina and focus each stay within `[0, max]`
under any sequence of `heal` / `use_stamina` / `use_focus` / `rest` calls
(`take_damage`'s unfloored health subtraction stays the documented
exception), but sanity is NOT clamped on combat mutation: the enemy's taunt
subtracts 5 with no lower bound, so sanity can leave the 0–100 range. -/
theorem pools_stay_in_range (ops : List CharOp) (c : Character)
    (h : pools_in_range c) :
    pools_in_range (ops.foldl apply_char_op c) := by
  induction ops generalizing c with
  | nil => exact h
  | cons op rest ih =>
    rw [List.foldl_cons]
    refine ih _ ?_
    unfold pools_in_range at h ⊢
    cases op <;>
      simp only [apply_char_op, Character.heal, Character.use_stamina,
        Character.use_focus, Character.rest] <;>
      (try split_ifs) <;>
      (try dsimp only) <;>
      omega

/-- Witness for C4 (amended): a concrete call sequence on the fresh
character keeps all three pools within range. -/
theorem pools_stay_in_range_witness :
    pools_in_range
      ([CharOp.use_stamina 40, CharOp.heal 30, CharOp.rest,
        CharOp.use_focus 250, CharOp.use_focus 60].foldl apply_char_op
        war_orphan) :=
  pools_stay_in_range _ war_orphan (by decide)

/-- C5 counterexample: a `strong_attack` that hits and deals 20 damage
(action deterministically chosen because the player defended) leaves the
equipped armor's durability untouched at 100 — strong-attack hits do not
decrement armor durability. -/
theorem strong_attack_spares_armor_cex :
    bandit.choose_action (some "defend") 0 = "strong_attack" ∧
    armored_combat.player.equipped_armor = some leather_armor ∧
    (armored_combat.enemy_turn 100 "strong_attack" 0).2 =
      EnemyEvent.strong_attack_hit 20 ∧
    (armored_combat.enemy_turn 100 "strong_attack" 0).1.player.health =
      armored_combat.player.health - 20 ∧
    (armored_combat.enemy_turn 100 "strong_attack" 0).1.player.equipped_armor =
      some leather_armor := by
  decide

/-- C5 (amended): in a non-dodged enemy turn against a living enemy, the
equipped armor's durability decreases by 1 exactly when the resolved action
is the plain `attack` — regardless of whether the effective damage is
positive — and the armor-destroyed event is reported exactly when the
decremented durability reaches ≤ 0; a `strong_attack`, though it deals
damage, leaves the equipped armor unchanged. -/
theorem armor_durability_on_enemy_turn (st : Combat) (dodge_roll : Nat)
    (offset : Int) (a : Item)
    (h1 : st.enemy.is_alive = true)
    (h2 : st.player.get_dodge_chance < (dodge_roll : Int))
    (ha : st.player.equipped_armor = some a) :
    (st.enemy_turn dodge_roll "attack" offset).1.player.equipped_armor =
      some { a with durability := a.durability - 1 } ∧
    (st.enemy_turn dodge_roll "attack" offset).2 =
      EnemyEvent.attack_hit
        (max 0 (st.enemy.get_attack_damage offset - st.player.defense))
        (decide (a.durability - 1 ≤ 0)) ∧
    (st.enemy_turn dodge_roll "strong_attack" offset).1.player.equipped_armor =
      st.player.equipped_armor ∧
    (st.enemy_turn dodge_roll "strong_attack" offset).2 =
      EnemyEvent.strong_attack_hit
        (max 0 (Int.tdiv (st.enemy.get_attack_damage offset * 3) 2 -
          st.player.defense)) := by
  have hal : ¬ (¬ st.enemy.is_alive = true) := by simp [h1]
  have hdg : ¬ ((dodge_roll : Int) ≤ st.player.get_dodge_chance) :=
    not_le.mpr h2
  refine ⟨?_, ?_, ?_, ?_⟩ <;>
  · simp only [Combat.enemy_turn, Character.take_damage]
    rw [if_neg hal, if_neg hdg]
    (try rw [if_pos rfl])
    (try rw [if_neg (by decide), if_pos rfl])
    (try rw [ha])
    simp

/-- Witness for C5 (amended): the armored session instantiates the theorem;
a plain attack grinds the leather armor to durability 99 with no
armor-destroyed report. -/
theorem armor_durability_on_enemy_turn_witness :
    (armored_combat.enemy_turn 100 "attack" 0).1.player.equipped_armor =
      some { leather_armor with durability := 99 } ∧
    (armored_combat.enemy_turn 100 "attack" 0).2 =
      EnemyEvent.attack_hit 10 false := by
  have h := armor_durability_on_enemy_turn armored_combat 100 0 leather_armor
    (by decide) (by decide) (by decide)
  refine ⟨h.1, ?_⟩
  rw [h.2.1]
  decide

/-- C6: `take_damage` subtracts exactly `max(0, amount − defense)` from
health using only the scalar `defense` field: replacing the buff list and
the equipped armor arbitrarily changes neither the effective damage nor the
resulting health, while appending the defend action's +15 defense buff does
raise the derived `get_total_defense` by 15. -/
theorem take_damage_ignores_buffs_and_armor (c : Character) (damage : Int)
    (b : List Buff) (o : Option Item) :
    (c.take_damage damage).1 =
      { c with health := c.health - max 0 (damage - c.defense) } ∧
    (c.take_damage damage).2 = max 0 (damage - c.defense) ∧
    (({ c with buffs := b, equipped_armor := o } : Character).take_damage
        damage).2 = (c.take_damage damage).2 ∧
    (({ c with buffs := b, equipped_armor := o } : Character).take_damage
        damage).1.health = c.health - max 0 (damage - c.defense) ∧
    Character.get_total_defense
        { c with buffs := c.buffs ++ [⟨"defense", 1, 15⟩] } =
      c.get_total_defense + 15 := by
  refine ⟨rfl, rfl, rfl, rfl, ?_⟩
  simp only [Character.get_total_defense, Character.buff_sum,
    List.foldl_append, List.foldl_cons, List.foldl_nil]
  try dsimp only
  simp only [if_true]
  omega

/-- The level-up loop never decreases the level. -/
theorem level_up_loop_level_ge (c : Character) :
    c.level ≤ (Character.level_up_loop c).level := by
  induction c using Character.level_up_loop.induct with
  | case1 c h ih =>
    rw [Character.level_up_loop, if_pos h]
    simp at ih
    omega
  | case2 c h => rw [Character.level_up_loop, if_neg h]

/-- The level-up loop exits with `experience < level * 100`. -/
theorem level_up_loop_exp_lt (c : Character) :
    (Character.level_up_loop c).experience <
      (Character.level_up_loop c).level * 100 := by
  induction c using Character.level_up_loop.induct with
  | case1 c h ih =>
    rw [Character.level_up_loop, if_pos h]
    exact ih
  | case2 c h => rw [Character.level_up_loop, if_neg h]; omega

/-- Each level gained in the loop grants +10 to each max pool and +2 to
base attack/defense. -/
theorem level_up_loop_stats (c : Character) :
    (Character.level_up_loop c).max_health =
      c.max_health + 10 * ((Character.level_up_loop c).level - c.level) ∧
    (Character.level_up_loop c).max_stamina =
      c.max_stamina + 10 * ((Character.level_up_loop c).level - c.level) ∧
    (Character.level_up_loop c).max_focus =
      c.max_focus + 10 * ((Character.level_up_loop c).level - c.level) ∧
    (Character.level_up_loop c).base_attack =
      c.base_attack + 2 * ((Character.level_up_loop c).level - c.level) ∧
    (Character.level_up_loop c).base_defense =
      c.base_defense + 2 * ((Character.level_up_loop c).level - c.level) := by
  induction c using Character.level_up_loop.induct with
  | case1 c h ih =>
    rw [Character.level_up_loop, if_pos h]
    have hge := level_up_loop_level_ge { c with
      experience := c.experience - c.level * 100,
      level := c.level + 1,
      max_health := c.max_health + 10,
      max_stamina := c.max_stamina + 10,
      max_focus := c.max_focus + 10,
      base_attack := c.base_attack + 2,
      base_defense := c.base_defense + 2 }
    simp at ih hge
    omega
  | case2 c h =>
    rw [Character.level_up_loop, if_neg h]
    simp

/-- C7: `gain_experience` adds the amount to experience, then repeatedly
subtracts `level×100`, increments the level, and grants +10 to each max
pool and +2 to base attack/defense per level-up; the loop terminates with
`experience < level×100`, and a single large grant performs multiple
level-ups (a fresh character fed 1000 experience reaches level 5 with 0
left over and max health 100+4×10). -/
theorem gain_experience_spec (c : Character) (amount : Nat) :
    c.level ≤ (c.gain_experience amount).level ∧
    (c.gain_experience amount).experience <
      (c.gain_experience amount).level * 100 ∧
    (c.gain_experience amount).max_health =
      c.max_health + 10 * ((c.gain_experience amount).level - c.level) ∧
    (c.gain_experience amount).max_stamina =
      c.max_stamina + 10 * ((c.gain_experience amount).level - c.level) ∧
    (c.gain_experience amount).max_focus =
      c.max_focus + 10 * ((c.gain_experience amount).level - c.level) ∧
    (c.gain_experience amount).base_attack =
      c.base_attack + 2 * ((c.gain_experience amount).level - c.level) ∧
    (c.gain_experience amount).base_defense =
      c.base_defense + 2 * ((c.gain_experience amount).level - c.level) ∧
    (war_orphan.gain_experience 1000).level = 5 ∧
    (war_orphan.gain_experience 1000).experience = 0 ∧
    (war_orphan.gain_experience 1000).max_health = 140 := by
  have hge := level_up_loop_level_ge { c with experience := c.experience + amount }
  have hlt := level_up_loop_exp_lt { c with experience := c.experience + amount }
  have hst := level_up_loop_stats { c with experience := c.experience + amount }
  simp only [Character.gain_experience]
  try dsimp only at hge hlt hst ⊢
  refine ⟨hge, hlt, hst.1, hst.2.1, hst.2.2.1, hst.2.2.2.1, hst.2.2.2.2, ?_, ?_, ?_⟩ <;>
  · simp [Character.gain_experience, Character.level_up_loop, war_orphan]

/-- C8: `advance_job` advances exactly one stage iff a next stage exists in
the fixed 5-tier order and `level ≥ (stage index + 1)×5`, granting +20 to
each max pool and +5 to base attack/defense, reporting whether it advanced;
a level-5 WANDERER advances to WARRIOR_APPRENTICE with exactly those
bonuses, and an immediate second call reports no advancement (the next tier
needs level 10). -/
theorem advance_job_spec (c : Character) :
    ((c.advance_job).2 = true ↔
      job_progression c.job ≠ none ∧ (c.job.index + 1) * 5 ≤ c.level) ∧
    ((c.advance_job).2 = false → (c.advance_job).1 = c) ∧
    (∀ next, job_progression c.job = some next →
      (c.job.index + 1) * 5 ≤ c.level →
      (c.advance_job).1 = { c with
        job := next,
        max_health := c.max_health + 20,
        max_stamina := c.max_stamina + 20,
        max_focus := c.max_focus + 20,
        base_attack := c.base_attack + 5,
        base_defense := c.base_defense + 5 }) ∧
    (level_5_wanderer.advance_job).2 = true ∧
    (level_5_wanderer.advance_job).1.job = JobPath.WARRIOR_APPRENTICE ∧
    (level_5_wanderer.advance_job).1.max_health =
      level_5_wanderer.max_health + 20 ∧
    (level_5_wanderer.advance_job).1.max_stamina =
      level_5_wanderer.max_stamina + 20 ∧
    (level_5_wanderer.advance_job).1.max_focus =
      level_5_wanderer.max_focus + 20 ∧
    (level_5_wanderer.advance_job).1.base_attack =
      level_5_wanderer.base_attack + 5 ∧
    (level_5_wanderer.advance_job).1.base_defense =
      level_5_wanderer.base_defense + 5 ∧
    ((level_5_wanderer.advance_job).1.advance_job).2 = false := by
  refine ⟨?_, ?_, ?_, ?_, ?_, ?_, ?_, ?_, ?_, ?_, ?_⟩
  · cases hj : job_progression c.job <;>
      simp only [Character.advance_job, hj] <;>
      (try split_ifs with hl) <;> simp_all
  · cases hj : job_progression c.job <;>
      simp only [Character.advance_job, hj] <;>
      (try split_ifs with hl) <;> simp_all
  · intro next hj hl
    simp only [Character.advance_job, hj]
    rw [if_pos hl]
  all_goals decide

/-- Witness for C8 at the concrete level-5 WANDERER. -/
theorem advance_job_spec_witness :
    (level_5_wanderer.advance_job).1 = { level_5_wanderer with
      job := .WARRIOR_APPRENTICE,
      max_health := level_5_wanderer.max_health + 20,
      max_stamina := level_5_wanderer.max_stamina + 20,
      max_focus := level_5_wanderer.max_focus + 20,
      base_attack := level_5_wanderer.base_attack + 5,
      base_defense := level_5_wanderer.base_defense + 5 } :=
  (advance_job_spec level_5_wanderer).2.2.1 .WARRIOR_APPRENTICE
    (by decide) (by decide)

/-- C9: the derived dodge chance is
`min(10 + focus/20 + dodge-buff sum, 75)`; it never exceeds 75, is
monotonically non-decreasing in focus and does not decrease when a
non-negative dodge buff is added. -/
theorem dodge_chance_spec (c : Character) (f1 f2 v t : Int)
    (hf : f1 ≤ f2) (hv : 0 ≤ v) :
    c.get_dodge_chance =
      min (10 + c.focus / 20 + Character.buff_sum c.buffs "dodge") 75 ∧
    c.get_dodge_chance ≤ 75 ∧
    ({ c with focus := f1 } : Character).get_dodge_chance ≤
      ({ c with focus := f2 } : Character).get_dodge_chance ∧
    c.get_dodge_chance ≤
      ({ c with buffs := c.buffs ++ [⟨"dodge", t, v⟩] } :
        Character).get_dodge_chance := by
  refine ⟨rfl, min_le_right _ _, ?_, ?_⟩
  · unfold Character.get_dodge_chance
    try dsimp only
    omega
  · unfold Character.get_dodge_chance Character.buff_sum
    try dsimp only
    rw [List.foldl_append]
    simp only [List.foldl_cons, List.foldl_nil]
    try dsimp only
    simp only [if_true]
    omega

/-- Witness for C9 at the fresh character with focus 0 vs 40 and a +30
dodge buff. -/
theorem dodge_chance_spec_witness :
    war_orphan.get_dodge_chance ≤ 75 ∧
    ({ war_orphan with focus := 0 } : Character).get_dodge_chance ≤
      ({ war_orphan with focus := 40 } : Character).get_dodge_chance ∧
    war_orphan.get_dodge_chance ≤
      ({ war_orphan with buffs := war_orphan.buffs ++ [⟨"dodge", 2, 30⟩] } :
        Character).get_dodge_chance :=
  ⟨(dodge_chance_spec war_orphan 0 40 30 2 (by decide) (by decide)).2.1,
    (dodge_chance_spec war_orphan 0 40 30 2 (by decide) (by decide)).2.2.1,
    (dodge_chance_spec war_orphan 0 40 30 2 (by decide) (by decide)).2.2.2⟩

/-- C10 counterexample: equipping is NOT gated on inventory membership — a
weapon that is in no inventory at all is equipped successfully. -/
theorem equip_without_membership_cex :
    war_orphan.inventory = [] ∧
    rusty_sword.durability > 0 ∧
    (war_orphan.equip_weapon rusty_sword).equipped_weapon =
      some rusty_sword := by
  decide

/-- C10 (amended): equipping a weapon (resp. armor) succeeds exactly when
the item is of the matching category with durability > 0 — inventory
membership is NOT checked; when the guard fails the character is unchanged,
and when it succeeds only the corresponding slot changes. -/
theorem equip_guard_spec (c : Character) (item : Item) :
    (item.item_type = ItemType.weapon → item.durability > 0 →
      c.equip_weapon item = { c with equipped_weapon := some item }) ∧
    (¬ (item.item_type = ItemType.weapon ∧ item.durability > 0) →
      c.equip_weapon item = c) ∧
    (item.item_type = ItemType.armor → item.durability > 0 →
      c.equip_armor item = { c with equipped_armor := some item }) ∧
    (¬ (item.item_type = ItemType.armor ∧ item.durability > 0) →
      c.equip_armor item = c) := by
  refine ⟨fun h1 h2 => ?_, fun h => ?_, fun h1 h2 => ?_, fun h => ?_⟩ <;>
    simp only [Character.equip_weapon, Character.equip_armor] <;>
    split_ifs <;> first | rfl | tauto

/-- Witness for C10 (amended): the catalog's rusty sword equips onto the
fresh character. -/
theorem equip_guard_spec_witness :
    war_orphan.equip_weapon rusty_sword =
      { war_orphan with equipped_weapon := some rusty_sword } :=
  (equip_guard_spec war_orphan rusty_sword).1 (by decide) (by decide)

end JoseonRPG
